import Mathlib

set_option autoImplicit false
set_option maxHeartbeats 1000000
set_option maxRecDepth 4000

/-!
Verification development for the `vcenter_folder` Ansible module
(plugins/modules/vcenter_folder.py).  The module manages folder objects in a
vCenter datacenter inventory: it resolves a folder by name and category under
an optional parent anchor, creates it when absent, destroys it when present,
and reports an idempotent no-op otherwise.

The inventory is embedded as a finite rose tree of managed objects.  The
module's own logic (the `VmwareFolderManager.ensure` state machine and its
`get_folder` lookup, source lines 199-411) is translated directly from the
Python source.  The collaborators that live in `module_utils` (get_all_objs,
find_datacenter_by_name, wait_for_task, get_folder_path) are not part of the
given source tree and are modelled from the specification, as marked on each
definition.
-/

namespace VcenterFolder

/-- The kind of a managed object in the inventory tree.  The module only ever
enumerates `vim.Folder` objects; datacenters appear in the tree as anchor
nodes of a distinct kind so that the `[vim.Folder]` type filter of
`get_all_objs` can be expressed. -/
inductive ObjKind where
  | folder
  | datacenter
deriving DecidableEq, Repr

/-- A managed object: stable opaque reference id (`moid`), display name,
object kind, and the child-type signature (`childType` of a `vim.Folder`,
the list of object kinds the folder may contain). -/
structure Obj where
  moid : String
  name : String
  kind : ObjKind
  childType : List String
deriving DecidableEq, Repr

instance : Inhabited Obj := ⟨{ moid := "", name := "", kind := ObjKind.folder, childType := [] }⟩

/-- The inventory as a rose tree.  The root node stands for
`content.rootFolder`; its children are the datacenter nodes; each datacenter
node's children are its four category root folders, in the fixed order
vm, host, datastore, network (mirroring the `datacenter_folder_type`
dictionary built at source lines 192-197 from the datacenter's `vmFolder`,
`hostFolder`, `datastoreFolder` and `networkFolder` attributes). -/
inductive Tree where
  | node (o : Obj) (kids : List Tree)

instance : Inhabited Tree := ⟨Tree.node default []⟩

def Tree.obj : Tree → Obj
  | .node o _ => o

def Tree.kids : Tree → List Tree
  | .node _ ks => ks

/-- The folder categories accepted by the `folder_type` module option. -/
inductive FolderType where
  | vm
  | host
  | datastore
  | network
deriving DecidableEq, Repr

def ftypeStr : FolderType → String
  | .vm => "vm"
  | .host => "host"
  | .datastore => "datastore"
  | .network => "network"

/-- Index of a category root among a datacenter node's children, following
the fixed child order of the embedding. -/
def catIdx : FolderType → Nat
  | .vm => 0
  | .host => 1
  | .datastore => 2
  | .network => 3

/-- The category root folder object of a datacenter node, i.e. the value of
`self.datacenter_folder_type[folder_type]` (source lines 192-197). -/
def catRootObj (dcT : Tree) (t : FolderType) : Obj :=
  (List.getD (Tree.kids dcT) (catIdx t) default).obj

/-- Child-type signature of the category root folder for this datacenter:
`self.datacenter_folder_type[folder_type].childType`. -/
def catRootChildType (dcT : Tree) (t : FolderType) : List String :=
  (catRootObj dcT t).childType

mutual

/-- Preorder traversal pairing every node's object with its ancestor chain
(nearest ancestor first). -/
def collect (t : Tree) (anc : List Obj) : List (Obj × List Obj) :=
  match t with
  | .node o kids => (o, anc) :: collectL kids (o :: anc)

def collectL (ts : List Tree) (anc : List Obj) : List (Obj × List Obj) :=
  match ts with
  | [] => []
  | t :: rest => collect t anc ++ collectL rest anc

end

/-- Modelled from the spec: the `get_all_objs` primitive of `module_utils`
enumerates all objects reachable under an anchor (a recursive container view
excludes the container itself), so the candidates of a lookup are the strict
descendants of the anchor, here paired with their ancestor chains. -/
def descendants (t : Tree) : List (Obj × List Obj) :=
  match t with
  | .node o kids => collectL kids [o]

mutual

/-- Locate the subtree rooted at the object with the given moid (first match
in preorder). -/
def findSubtree (t : Tree) (m : String) : Option Tree :=
  match t with
  | .node o kids => if o.moid = m then some (Tree.node o kids) else findSubtreeL kids m

def findSubtreeL (ts : List Tree) (m : String) : Option Tree :=
  match ts with
  | [] => none
  | t :: rest =>
    match findSubtree t m with
    | some r => some r
    | none => findSubtreeL rest m

end

mutual

/-- Modelled from the spec: `find_datacenter_by_name` of `module_utils`
returns the datacenter object with the given name, or none. -/
def findDC (t : Tree) (n : String) : Option Tree :=
  match t with
  | .node o kids =>
    if o.kind = ObjKind.datacenter ∧ o.name = n then some (Tree.node o kids)
    else findDCL kids n

def findDCL (ts : List Tree) (n : String) : Option Tree :=
  match ts with
  | [] => none
  | t :: rest =>
    match findDC t n with
    | some r => some r
    | none => findDCL rest n

end

/-- The per-candidate match test of `get_folder` (source lines 400-409).
With a parent anchor (`checkDC = none`): name equality and child-type
signature equality.  Without one (`checkDC = some dcName`): additionally the
grandparent's name — `folder.parent.parent.name` — must equal the datacenter
name (a missing grandparent cannot occur for candidates inside a datacenter
and is treated as a non-match). -/
def folderMatch (sig : List String) (n : String) (checkDC : Option String)
    (pr : Obj × List Obj) : Bool :=
  match checkDC with
  | none =>
    decide (pr.1.kind = ObjKind.folder ∧ pr.1.name = n ∧ pr.1.childType = sig)
  | some dcn =>
    decide (pr.1.kind = ObjKind.folder ∧ pr.1.name = n ∧ pr.1.childType = sig ∧
      Option.map Obj.name (List.get? pr.2 1) = some dcn)

/-- `VmwareFolderManager.get_folder` (source lines 393-411): enumerate all
folder objects under the anchor (the whole inventory when no parent is
given) and return the first one matching `folderMatch`.  The parent anchor is
passed by moid, as the module passes the previously resolved folder object. -/
def get_folder (content : Tree) (dcT : Tree) (dcName folder_name : String)
    (t : FolderType) (parentMoid : Option String) : Option Obj :=
  let sig := catRootChildType dcT t
  match parentMoid with
  | some m =>
    match findSubtree content m with
    | none => none
    | some sub => Option.map Prod.fst ((descendants sub).find? (folderMatch sig folder_name none))
  | none =>
    Option.map Prod.fst ((descendants content).find? (folderMatch sig folder_name (some dcName)))

/-- Python's `s.strip('/')`: drop all leading and trailing slash characters. -/
def pyStrip (s : String) : String :=
  String.mk (((s.toList.dropWhile (fun c => c = '/')).reverse.dropWhile (fun c => c = '/')).reverse)

/-- Python's `"/" in s` membership test. -/
def hasSlash (s : String) : Bool :=
  s.toList.any (fun c => c = '/')

/-- Python's `s.split('/')`: split on every slash, keeping empty fragments;
the empty string yields `[""]`. -/
def splitSlash (s : String) : List String :=
  (s.toList.foldr
    (fun c acc =>
      if c = '/' then [] :: acc
      else
        match acc with
        | [] => [[c]]
        | g :: rest => (c :: g) :: rest)
    [[]]).map String.mk

/-- The path walk of `ensure` (source lines 229-239 and 327-337): resolve
each segment in order, anchoring each lookup on the previously resolved
folder; the first segment that fails to resolve is returned as the error. -/
def walkParts (content dcT : Tree) (dcName : String) (t : FolderType) :
    List String → Option String → Except String (Option String)
  | [], acc => .ok acc
  | part :: rest, acc =>
    match get_folder content dcT dcName part t acc with
    | none => .error part
    | some f => walkParts content dcT dcName t rest (some f.moid)

/-- Modelled from the spec: "resolve each path segment in order, using the
previously resolved folder as the next segment's anchor" — the sequential
single-segment resolution stated by the spec, written as a monadic fold, to
be compared with the source's loop `walkParts`. -/
def segFold (content dcT : Tree) (dcName : String) (t : FolderType)
    (parts : List String) (acc : Option String) : Except String (Option String) :=
  List.foldlM
    (fun a part =>
      match get_folder content dcT dcName part t a with
      | none => Except.error part
      | some f => Except.ok (some f.moid))
    acc parts

/-- A single quote character, used in the module's message templates
(`"Folder '%s' of type '%s' ..."`). -/
def sq : String := (Char.ofNat 39).toString

/-- Python truthiness of an optional string parameter (`if parent_folder:`):
true exactly for a present, non-empty string. -/
def truthy : Option String → Bool
  | none => false
  | some s => !s.isEmpty

/-- The value stored under the `result` key of the outcome dictionary.  The
source stores either a nested dictionary (with optional `path` and `msg`
entries) or — in some branches — a bare string. -/
inductive ResultVal where
  | str (s : String)
  | obj (path : Option String) (msg : Option String)
deriving DecidableEq, Repr

/-- The `results` dictionary passed to `exit_json`: the `changed` flag, the
`result` value and an optional top-level `msg` entry. -/
structure Results where
  changed : Bool
  result : ResultVal
  msg : Option String
deriving DecidableEq, Repr

/-- Terminal behaviour of one module invocation: a successful
`module.exit_json(**results)` or a fatal `module.fail_json(msg=...)`. -/
inductive ModuleExit where
  | exited (r : Results)
  | failed (msg : String)
deriving DecidableEq, Repr

/-- `changed` flag of a successful exit, none on failure. -/
def exitChanged : ModuleExit → Option Bool
  | .exited r => some r.changed
  | .failed _ => none

/-- The `path` entry of the `result` value of a successful exit, if any. -/
def resultPathOf : ModuleExit → Option String
  | .exited r =>
    match r.result with
    | .obj p _ => p
    | .str _ => none
  | .failed _ => none

/-- A mutating call issued to the inventory client. -/
inductive Mutation where
  | createFolder (parentMoid name : String)
  | unregisterAndDestroy (moid : String)
  | destroy (moid : String)
deriving DecidableEq, Repr

/-- Outcome of the `CreateFolder` call on the platform, used to classify the
exceptions caught at source lines 298-311. -/
inductive CreateOutcome where
  | ok
  | duplicateName (msg : String)
  | invalidName (msg : String)
  | otherFault (msg : String)
deriving DecidableEq, Repr

/-- Terminal status of the asynchronous destroy task, used to classify the
exceptions caught at source lines 382-390. -/
inductive TaskOutcome where
  | completed (msg : String)
  | concurrentAccess (msg : String)
  | invalidState (msg : String)
  | otherFault (msg : String)
deriving DecidableEq, Repr

/-- Modelled from the spec: the `wait_for_task` primitive of `module_utils`
("await-task(task) → (success: bool, message: string)"): blocks until the
task completes, returning the success flag and message on completion and
surfacing the task's fault otherwise. -/
def waitForTask : TaskOutcome → Except TaskOutcome (Bool × String)
  | .completed m => .ok (true, m)
  | e => .error e

/-- The `state` module option: desired state of the folder. -/
inductive SState where
  | present
  | absent
deriving DecidableEq, Repr

/-- The environment of one invocation: the inventory tree plus the platform's
responses to the (at most one) mutation the module issues. -/
structure Env where
  content : Tree
  createOutcome : CreateOutcome
  deleteOutcome : TaskOutcome

/-- The module parameters read by `ensure` (source lines 203-208).
`check_mode` lives on the module object, not in `params`, and is passed to
the model separately. -/
structure Params where
  state : SState
  datacenter : String
  folder_type : FolderType
  folder_name : String
  parent_folder : Option String
  parent_folder_moid : Option String

/-- Modelled from the spec: the `get_folder_path` helper of `module_utils` —
"the fully qualified slash-joined ancestor chain of the folder, computed by
walking parent references from the folder up to (but not including) the
datacenter root, in top-down order". -/
def pathOfMoid (content : Tree) (m : String) : String :=
  match (descendants content).find? (fun pr => pr.1.moid == m) with
  | none => ""
  | some pr =>
    "/" ++ String.intercalate "/"
      (((pr.2.takeWhile (fun o => o.kind == ObjKind.folder)).reverse.map Obj.name) ++ [pr.1.name])

/-- Path reported for a freshly created folder: the parent's path extended
with the new folder's name. -/
def newFolderPath (content : Tree) (parentMoid name : String) : String :=
  pathOfMoid content parentMoid ++ "/" ++ name

def msgExistsUnder (n pn : String) : String :=
  "Folder " ++ n ++ " already exists under parent folder " ++ pn

def msgExists (n : String) : String :=
  "Folder " ++ n ++ " already exists"

def msgWillCreateUnder (n t pn : String) : String :=
  "Folder " ++ sq ++ n ++ sq ++ " of type " ++ sq ++ t ++ sq ++ " under " ++ sq ++ pn ++ sq ++
    " will be created."

def msgCreatedUnder (n t pn : String) : String :=
  "Folder " ++ sq ++ n ++ sq ++ " of type " ++ sq ++ t ++ sq ++ " under " ++ sq ++ pn ++ sq ++
    " created successfully."

def msgWillCreate (n t : String) : String :=
  "Folder " ++ sq ++ n ++ sq ++ " of type " ++ sq ++ t ++ sq ++ " will be created."

def msgCreated (n t : String) : String :=
  "Folder " ++ sq ++ n ++ sq ++ " of type " ++ sq ++ t ++ sq ++ " created successfully."

def msgDuplicate (m : String) : String :=
  "Failed to create folder as another object has same name in the same target folder : " ++ m

def msgInvalidName (m : String) : String :=
  "Failed to create folder as folder name is not a valid entity name : " ++ m

def msgCreateGeneric (m : String) : String :=
  "Failed to create folder due to generic exception : " ++ m ++ " "

def msgWillRemoveUnder (n t pn : String) : String :=
  "Folder " ++ sq ++ n ++ sq ++ " of type " ++ sq ++ t ++ sq ++ " under " ++ sq ++ pn ++ sq ++
    " will be removed."

def msgWillRemove (n t : String) : String :=
  "Folder " ++ sq ++ n ++ sq ++ " of type " ++ sq ++ t ++ sq ++ " will be removed."

def msgConcurrent (m : String) : String :=
  "Failed to remove folder as another client modified folder before this operation : " ++ m

def msgInvalidState (m : String) : String :=
  "Failed to remove folder as folder is in invalid state : " ++ m

def msgRemoveGeneric (m : String) : String :=
  "Failed to remove folder due to generic exception " ++ m ++ " "

def msgCouldNotFind (part : String) : String :=
  "Could not find folder " ++ part

def msgParentMissing (pn : String) : String :=
  "Parent folder " ++ pn ++ " does not exist"

/-- Message of the moid-stub failure at source lines 218-219 and 320-321
(`"Could not find folder using moid %s : %s"`; the trailing native fault
text of the platform exception is not modelled). -/
def msgMoidMissing (m : String) : String :=
  "Could not find folder using moid " ++ m

/-- The initial outcome dictionary `{'changed': False, 'result': {}}` of
source line 210. -/
def initResults : Results :=
  { changed := false, result := ResultVal.obj none none, msg := none }

/-- Resolution stage of the `state == 'present'` branch (source lines
211-274): resolve the parent anchor, if any, and probe for the target
folder.  The outcome is a fatal message, an early `exit_json` dictionary
(target already found), or the pair of the resolved anchor moid
(`p_folder_obj`) and the possibly reassigned `parent_folder` variable, for
the create stage. -/
def presentResolve (env : Env) (dcT : Tree) (p : Params) :
    Except String (Results ⊕ (Option String × Option String)) :=
  if truthy p.parent_folder_moid then
    -- source lines 214-227: a stub is built from the moid; reading its name
    -- fails when the object does not exist
    let moid := p.parent_folder_moid.getD ""
    match findSubtree env.content moid with
    | none => .error (msgMoidMissing moid)
    | some sub =>
      let pname := sub.obj.name
      match get_folder env.content dcT p.datacenter p.folder_name p.folder_type (some moid) with
      | some _ =>
        .ok (.inl { changed := false, result := ResultVal.str (msgExistsUnder p.folder_name pname),
                    msg := none })
      | none => .ok (.inr (some moid, some pname))
  else if truthy p.parent_folder then
    let pf := p.parent_folder.getD ""
    if hasSlash pf then
      -- source lines 229-247: slash-separated parent path walk
      let parts := splitSlash (pyStrip pf)
      match walkParts env.content dcT p.datacenter p.folder_type parts none with
      | .error part => .error (msgCouldNotFind part)
      | .ok anchor =>
        match get_folder env.content dcT p.datacenter p.folder_name p.folder_type anchor with
        | some _ =>
          .ok (.inl { changed := false, result := ResultVal.str (msgExistsUnder p.folder_name pf),
                      msg := none })
        | none => .ok (.inr (anchor, some pf))
    else
      -- source lines 248-265: single-name parent lookup; on a found child the
      -- path stored at line 262 is immediately overwritten by the bare
      -- string assigned to the whole result value at lines 263-264
      match get_folder env.content dcT p.datacenter pf p.folder_type none with
      | none => .error (msgParentMissing pf)
      | some pObj =>
        match get_folder env.content dcT p.datacenter p.folder_name p.folder_type
            (some pObj.moid) with
        | some _ =>
          .ok (.inl { changed := false, result := ResultVal.str (msgExistsUnder p.folder_name pf),
                      msg := none })
        | none => .ok (.inr (some pObj.moid, some pf))
  else
    -- source lines 266-274: name-only lookup
    match get_folder env.content dcT p.datacenter p.folder_name p.folder_type none with
    | some f =>
      .ok (.inl { changed := false,
                  result := ResultVal.obj (some (pathOfMoid env.content f.moid))
                    (some (msgExists p.folder_name)),
                  msg := none })
    | none => .ok (.inr (none, p.parent_folder))

/-- Create stage of the `state == 'present'` branch (source lines 276-312).
`pobj` is the resolved anchor moid (`p_folder_obj`), `pfv` the current value
of the `parent_folder` variable. -/
def createStep (env : Env) (dcT : Tree) (p : Params) (pobj pfv : Option String)
    (check : Bool) : ModuleExit × List Mutation :=
  if (truthy pfv || truthy p.parent_folder_moid) && pobj.isSome then
    let pmoid := pobj.getD ""
    let pname := pfv.getD ""
    if check then
      (.exited { changed := true, result := ResultVal.obj none none,
                 msg := some (msgWillCreateUnder p.folder_name (ftypeStr p.folder_type) pname) },
       [])
    else
      match env.createOutcome with
      | .ok =>
        (.exited { changed := true,
                   result := ResultVal.obj (some (newFolderPath env.content pmoid p.folder_name))
                     (some (msgCreatedUnder p.folder_name (ftypeStr p.folder_type) pname)),
                   msg := none },
         [Mutation.createFolder pmoid p.folder_name])
      | .duplicateName m =>
        (.exited { changed := false, result := ResultVal.obj none none,
                   msg := some (msgDuplicate m) },
         [Mutation.createFolder pmoid p.folder_name])
      | .invalidName m =>
        (.failed (msgInvalidName m), [Mutation.createFolder pmoid p.folder_name])
      | .otherFault m =>
        (.failed (msgCreateGeneric m), [Mutation.createFolder pmoid p.folder_name])
  else if !truthy pfv && pobj.isNone then
    let rootMoid := (catRootObj dcT p.folder_type).moid
    if check then
      (.exited { changed := true, result := ResultVal.obj none none,
                 msg := some (msgWillCreate p.folder_name (ftypeStr p.folder_type)) },
       [])
    else
      match env.createOutcome with
      | .ok =>
        (.exited { changed := true,
                   result := ResultVal.obj (some (newFolderPath env.content rootMoid p.folder_name))
                     (some (msgCreated p.folder_name (ftypeStr p.folder_type))),
                   msg := none },
         [Mutation.createFolder rootMoid p.folder_name])
      | .duplicateName m =>
        (.exited { changed := false, result := ResultVal.obj none none,
                   msg := some (msgDuplicate m) },
         [Mutation.createFolder rootMoid p.folder_name])
      | .invalidName m =>
        (.failed (msgInvalidName m), [Mutation.createFolder rootMoid p.folder_name])
      | .otherFault m =>
        (.failed (msgCreateGeneric m), [Mutation.createFolder rootMoid p.folder_name])
  else
    -- neither create branch applies: fall through to `exit_json` at line 312
    (.exited initResults, [])

/-- Resolution stage of the `state == 'absent'` branch (source lines
313-358): resolve the parent anchor, if any, and look the target folder up.
Returns the target (`folder_obj`, possibly none) and the current value of
the `parent_folder` variable. -/
def absentResolve (env : Env) (dcT : Tree) (p : Params) :
    Except String (Option Obj × Option String) :=
  if truthy p.parent_folder_moid then
    let moid := p.parent_folder_moid.getD ""
    match findSubtree env.content moid with
    | none => .error (msgMoidMissing moid)
    | some sub =>
      .ok (get_folder env.content dcT p.datacenter p.folder_name p.folder_type (some moid),
           some sub.obj.name)
  else if truthy p.parent_folder then
    let pf := p.parent_folder.getD ""
    if hasSlash pf then
      let parts := splitSlash (pyStrip pf)
      match walkParts env.content dcT p.datacenter p.folder_type parts none with
      | .error part => .error (msgCouldNotFind part)
      | .ok anchor =>
        .ok (get_folder env.content dcT p.datacenter p.folder_name p.folder_type anchor, some pf)
    else
      match get_folder env.content dcT p.datacenter pf p.folder_type none with
      | none => .error (msgParentMissing pf)
      | some pObj =>
        .ok (get_folder env.content dcT p.datacenter p.folder_name p.folder_type (some pObj.moid),
             some pf)
  else
    .ok (get_folder env.content dcT p.datacenter p.folder_name p.folder_type none,
         p.parent_folder)

/-- Delete stage of the `state == 'absent'` branch (source lines 359-391).
The two arms of the `if parent_folder:` at line 361 differ only in the
check-mode message; outside check mode both submit `UnregisterAndDestroy`
for the vm category and `Destroy` otherwise, then block on the task. -/
def deleteStep (env : Env) (p : Params) (fobj : Option Obj) (pfv : Option String)
    (check : Bool) : ModuleExit × List Mutation :=
  match fobj with
  | none => (.exited initResults, [])
  | some f =>
    if check then
      let m :=
        if truthy pfv then msgWillRemoveUnder p.folder_name (ftypeStr p.folder_type) (pfv.getD "")
        else msgWillRemove p.folder_name (ftypeStr p.folder_type)
      (.exited { changed := true, result := ResultVal.obj none none, msg := some m }, [])
    else
      let mu :=
        if p.folder_type = FolderType.vm then Mutation.unregisterAndDestroy f.moid
        else Mutation.destroy f.moid
      match waitForTask env.deleteOutcome with
      | .ok pr =>
        (.exited { changed := pr.1, result := ResultVal.obj none none, msg := some pr.2 }, [mu])
      | .error (.concurrentAccess m) => (.failed (msgConcurrent m), [mu])
      | .error (.invalidState m) => (.failed (msgInvalidState m), [mu])
      | .error (.otherFault m) => (.failed (msgRemoveGeneric m), [mu])
      | .error (.completed m) => (.failed (msgRemoveGeneric m), [mu])

/-- `VmwareFolderManager.ensure` (source lines 199-391), together with the
datacenter lookup of the constructor (lines 187-190).  Returns the terminal
module outcome and the list of mutating calls issued to the inventory
client. -/
def ensure (env : Env) (p : Params) (check : Bool) : ModuleExit × List Mutation :=
  match findDC env.content p.datacenter with
  | none => (.failed ("Failed to find datacenter " ++ p.datacenter), [])
  | some dcT =>
    match p.state with
    | .present =>
      match presentResolve env dcT p with
      | .error m => (.failed m, [])
      | .ok (.inl r) => (.exited r, [])
      | .ok (.inr pr) => createStep env dcT p pr.1 pr.2 check
    | .absent =>
      match absentResolve env dcT p with
      | .error m => (.failed m, [])
      | .ok pr => deleteStep env p pr.1 pr.2 check

/-! Concrete inventories used by witnesses and counterexamples.  The
child-type signatures are the ones vCenter assigns to the four category
roots; child folders inherit the signature of their category. -/

def sigVM : List String := ["VirtualMachine", "VirtualApp", "Folder"]

def sigHost : List String := ["ComputeResource", "Folder"]

def sigDS : List String := ["Datastore", "StoragePod", "Folder"]

def sigNet : List String := ["Network", "DistributedVirtualSwitch", "Folder"]

def mkFolder (m n : String) (sig : List String) (kids : List Tree) : Tree :=
  Tree.node { moid := m, name := n, kind := ObjKind.folder, childType := sig } kids

/-- A datacenter node with its four category roots in the fixed order of the
embedding. -/
def mkDC (m n : String) (vmKids hostKids dsKids netKids : List Tree) : Tree :=
  Tree.node { moid := m, name := n, kind := ObjKind.datacenter, childType := [] }
    [ mkFolder (m ++ "-vm") "vm" sigVM vmKids,
      mkFolder (m ++ "-host") "host" sigHost hostKids,
      mkFolder (m ++ "-ds") "datastore" sigDS dsKids,
      mkFolder (m ++ "-net") "network" sigNet netKids ]

def mkRoot (dcs : List Tree) : Tree :=
  Tree.node
    { moid := "group-d1", name := "Datacenters", kind := ObjKind.folder,
      childType := ["Folder", "Datacenter"] } dcs

def fB : Tree := mkFolder "f-b" "b" sigVM []

def fA : Tree := mkFolder "f-a" "a" sigVM [fB]

def dcMainT : Tree := mkDC "dc0" "DC0" [fA] [] [] []

def invMain : Tree := mkRoot [dcMainT]

def sharedVMObj : Obj :=
  { moid := "f-sv", name := "Shared", kind := ObjKind.folder, childType := sigVM }

def sharedNetObj : Obj :=
  { moid := "f-sn", name := "Shared", kind := ObjKind.folder, childType := sigNet }

def dcSharedT : Tree := mkDC "dc0" "DC0" [Tree.node sharedVMObj []] [] [] [Tree.node sharedNetObj []]

def invShared : Tree := mkRoot [dcSharedT]

def dc1T : Tree := mkDC "dc1" "DC1" [] [] [] []

def dc2T : Tree := mkDC "dc2" "DC2" [mkFolder "f-x" "X" sigVM []] [] [] []

def invTwoDC : Tree := mkRoot [dc1T, dc2T]

def mineObj : Obj :=
  { moid := "f-mine", name := "mine", kind := ObjKind.folder, childType := sigVM }

/-- A vm folder named like the datacenter, nested directly under the vm
category root, with a subfolder `a` holding the folder `mine`. -/
def dcNestedT : Tree :=
  mkDC "dc0" "DC0"
    [mkFolder "f-dc0" "DC0" sigVM [mkFolder "f-na" "a" sigVM [Tree.node mineObj []]]] [] [] []

def invNested : Tree := mkRoot [dcNestedT]

def mkEnv (content : Tree) (c : CreateOutcome) (d : TaskOutcome) : Env :=
  { content := content, createOutcome := c, deleteOutcome := d }

example : findDC invMain "DC0" = some dcMainT := by rfl

example : get_folder invShared dcSharedT "DC0" "Shared" FolderType.vm none = some sharedVMObj := by
  decide

example : get_folder invTwoDC dc1T "DC1" "X" FolderType.vm none = none := by decide

example : get_folder invNested dcNestedT "DC0" "mine" FolderType.vm none = some mineObj := by
  decide

example :
    walkParts invMain dcMainT "DC0" FolderType.vm ["a", "x", "c"] none = Except.error "x" := by
  rfl

example : splitSlash (pyStrip "/a/x/c/") = ["a", "x", "c"] := by decide

example : pathOfMoid invMain "f-a" = "/vm/a" := by rfl

/-! Helper lemmas about the lookup and the path walk. -/

theorem folderMatch_true_anchored {sig : List String} {n : String} {pr : Obj × List Obj}
    (h : folderMatch sig n none pr = true) :
    pr.1.kind = ObjKind.folder ∧ pr.1.name = n ∧ pr.1.childType = sig :=
  of_decide_eq_true h

theorem folderMatch_true_noanchor {sig : List String} {n dcn : String} {pr : Obj × List Obj}
    (h : folderMatch sig n (some dcn) pr = true) :
    pr.1.kind = ObjKind.folder ∧ pr.1.name = n ∧ pr.1.childType = sig ∧
      Option.map Obj.name (List.get? pr.2 1) = some dcn :=
  of_decide_eq_true h

theorem get_folder_none_eq (content dcT : Tree) (dcName n : String) (t : FolderType) :
    get_folder content dcT dcName n t none =
      Option.map Prod.fst
        ((descendants content).find? (folderMatch (catRootChildType dcT t) n (some dcName))) := rfl

theorem get_folder_some_eq (content dcT : Tree) (dcName n : String) (t : FolderType)
    (m : String) :
    get_folder content dcT dcName n t (some m) =
      match findSubtree content m with
      | none => none
      | some sub =>
        Option.map Prod.fst
          ((descendants sub).find? (folderMatch (catRootChildType dcT t) n none)) := rfl

/-- Any folder returned by `get_folder` — anchored or not — carries the
child-type signature of the requested category's root folder. -/
theorem get_folder_some_sig {content dcT : Tree} {dcName n : String} {t : FolderType}
    {a : Option String} {f : Obj} (h : get_folder content dcT dcName n t a = some f) :
    f.childType = catRootChildType dcT t := by
  cases a with
  | none =>
    rw [get_folder_none_eq] at h
    rcases Option.map_eq_some'.mp h with ⟨pr, hfind, hfst⟩
    have hm := folderMatch_true_noanchor (List.find?_some hfind)
    rw [← hfst]
    exact hm.2.2.1
  | some m =>
    rw [get_folder_some_eq] at h
    cases hs : findSubtree content m with
    | none => rw [hs] at h; exact Option.noConfusion h
    | some sub =>
      rw [hs] at h
      rcases Option.map_eq_some'.mp h with ⟨pr, hfind, hfst⟩
      have hm := folderMatch_true_anchored (List.find?_some hfind)
      rw [← hfst]
      exact hm.2.2

/-- Inversion of a successful name-only (no parent anchor) lookup: the
returned folder is a candidate of the whole-inventory enumeration whose
name, signature and grandparent name all match. -/
theorem get_folder_noanchor_inv {content dcT : Tree} {dcName n : String} {t : FolderType}
    {f : Obj} (h : get_folder content dcT dcName n t none = some f) :
    ∃ anc, (f, anc) ∈ descendants content ∧ f.kind = ObjKind.folder ∧ f.name = n ∧
      f.childType = catRootChildType dcT t ∧
      Option.map Obj.name (List.get? anc 1) = some dcName := by
  rw [get_folder_none_eq] at h
  rcases Option.map_eq_some'.mp h with ⟨pr, hfind, hfst⟩
  have hmem := List.mem_of_find?_eq_some hfind
  have hm := folderMatch_true_noanchor (List.find?_some hfind)
  subst hfst
  exact ⟨pr.2, by simpa using hmem, hm.1, hm.2.1, hm.2.2.1, hm.2.2.2⟩

theorem walkParts_nil (content dcT : Tree) (dcName : String) (t : FolderType)
    (acc : Option String) : walkParts content dcT dcName t [] acc = Except.ok acc := rfl

theorem walkParts_cons (content dcT : Tree) (dcName : String) (t : FolderType)
    (p : String) (rest : List String) (acc : Option String) :
    walkParts content dcT dcName t (p :: rest) acc =
      match get_folder content dcT dcName p t acc with
      | none => Except.error p
      | some f => walkParts content dcT dcName t rest (some f.moid) := rfl

theorem segFold_cons (content dcT : Tree) (dcName : String) (t : FolderType)
    (p : String) (rest : List String) (acc : Option String) :
    segFold content dcT dcName t (p :: rest) acc =
      match get_folder content dcT dcName p t acc with
      | none => Except.error p
      | some f => segFold content dcT dcName t rest (some f.moid) := by
  simp only [segFold, List.foldlM]
  cases hg : get_folder content dcT dcName p t acc with
  | none => rfl
  | some f => rfl

/-- The source's walk loop is the sequential single-segment fold the spec
describes. -/
theorem walkParts_eq_segFold (content dcT : Tree) (dcName : String) (t : FolderType) :
    ∀ (parts : List String) (acc : Option String),
      walkParts content dcT dcName t parts acc = segFold content dcT dcName t parts acc := by
  intro parts
  induction parts with
  | nil => intro acc; rfl
  | cons p rest ih =>
    intro acc
    rw [walkParts_cons, segFold_cons]
    cases hg : get_folder content dcT dcName p t acc with
    | none => rfl
    | some f => exact ih (some f.moid)

/-- A failing walk fails on the first unresolved segment: every earlier
segment resolved (the walk of the prefix succeeds) and the named segment
itself does not resolve under the anchor the prefix produced. -/
theorem walkParts_error_first (content dcT : Tree) (dcName : String) (t : FolderType) :
    ∀ (parts : List String) (acc : Option String) (part : String),
      walkParts content dcT dcName t parts acc = Except.error part →
      ∃ i a, List.get? parts i = some part ∧
        walkParts content dcT dcName t (List.take i parts) acc = Except.ok a ∧
        get_folder content dcT dcName part t a = none := by
  intro parts
  induction parts with
  | nil => intro acc part h; exact absurd h (by simp [walkParts])
  | cons p rest ih =>
    intro acc part h
    rw [walkParts_cons] at h
    cases hg : get_folder content dcT dcName p t acc with
    | none =>
      rw [hg] at h
      have hp : p = part := by
        have := h
        injection this
      refine ⟨0, acc, ?_, rfl, ?_⟩
      · simpa using hp
      · rw [← hp]; exact hg
    | some f =>
      rw [hg] at h
      rcases ih (some f.moid) part h with ⟨i, a, h1, h2, h3⟩
      refine ⟨i + 1, a, by simpa using h1, ?_, h3⟩
      rw [List.take_succ_cons, walkParts_cons, hg]
      exact h2

/-! Unfolding lemmas for `ensure` and inversion lemmas for its stages. -/

theorem ensure_present_eq (env : Env) (p : Params) (dcT : Tree) (check : Bool)
    (hdc : findDC env.content p.datacenter = some dcT) (hst : p.state = SState.present) :
    ensure env p check =
      match presentResolve env dcT p with
      | .error m => (ModuleExit.failed m, [])
      | .ok (.inl r) => (ModuleExit.exited r, [])
      | .ok (.inr pr) => createStep env dcT p pr.1 pr.2 check := by
  unfold ensure
  rw [hdc, hst]

theorem ensure_absent_eq (env : Env) (p : Params) (dcT : Tree) (check : Bool)
    (hdc : findDC env.content p.datacenter = some dcT) (hst : p.state = SState.absent) :
    ensure env p check =
      match absentResolve env dcT p with
      | .error m => (ModuleExit.failed m, [])
      | .ok pr => deleteStep env p pr.1 pr.2 check := by
  unfold ensure
  rw [hdc, hst]

/-- In the slash-path branch, a failing walk makes the present-state
resolution fail with the message naming the failed segment. -/
theorem presentResolve_slash_error (env : Env) (dcT : Tree) (p : Params) (pf part : String)
    (hmoid : truthy p.parent_folder_moid = false)
    (hpf : p.parent_folder = some pf)
    (hpft : truthy (some pf) = true)
    (hslash : hasSlash pf = true)
    (hw : walkParts env.content dcT p.datacenter p.folder_type (splitSlash (pyStrip pf)) none =
      Except.error part) :
    presentResolve env dcT p = Except.error (msgCouldNotFind part) := by
  simp [presentResolve, hmoid, hpf, hpft, hslash, hw]

/-- Same as `presentResolve_slash_error` for the absent state. -/
theorem absentResolve_slash_error (env : Env) (dcT : Tree) (p : Params) (pf part : String)
    (hmoid : truthy p.parent_folder_moid = false)
    (hpf : p.parent_folder = some pf)
    (hpft : truthy (some pf) = true)
    (hslash : hasSlash pf = true)
    (hw : walkParts env.content dcT p.datacenter p.folder_type (splitSlash (pyStrip pf)) none =
      Except.error part) :
    absentResolve env dcT p = Except.error (msgCouldNotFind part) := by
  simp [absentResolve, hmoid, hpf, hpft, hslash, hw]

/-- Every early `exit_json` of the present-state resolution reports
`changed = false` and carries no top-level message. -/
theorem presentResolve_inl_changed (env : Env) (dcT : Tree) (p : Params) (r : Results)
    (h : presentResolve env dcT p = Except.ok (Sum.inl r)) :
    r.changed = false ∧ r.msg = none := by
  unfold presentResolve at h
  dsimp only [] at h
  split at h
  case isTrue =>
    split at h
    case h_1 => exact absurd h (by simp)
    case h_2 =>
      split at h
      case h_1 => simp only [Except.ok.injEq, Sum.inl.injEq] at h; rw [← h]; exact ⟨rfl, rfl⟩
      case h_2 => exact absurd h (by simp)
  case isFalse =>
    split at h
    case isTrue =>
      split at h
      case isTrue =>
        split at h
        case h_1 => exact absurd h (by simp)
        case h_2 =>
          split at h
          case h_1 => simp only [Except.ok.injEq, Sum.inl.injEq] at h; rw [← h]; exact ⟨rfl, rfl⟩
          case h_2 => exact absurd h (by simp)
      case isFalse =>
        split at h
        case h_1 => exact absurd h (by simp)
        case h_2 =>
          split at h
          case h_1 => simp only [Except.ok.injEq, Sum.inl.injEq] at h; rw [← h]; exact ⟨rfl, rfl⟩
          case h_2 => exact absurd h (by simp)
    case isFalse =>
      split at h
      case h_1 => simp only [Except.ok.injEq, Sum.inl.injEq] at h; rw [← h]; exact ⟨rfl, rfl⟩
      case h_2 => exact absurd h (by simp)

theorem createStep_check_log (env : Env) (dcT : Tree) (p : Params) (pobj pfv : Option String) :
    (createStep env dcT p pobj pfv true).2 = [] := by
  cases h1 : ((truthy pfv || truthy p.parent_folder_moid) && pobj.isSome) with
  | true => simp [createStep, h1]
  | false =>
    cases h2 : (!truthy pfv && pobj.isNone) with
    | true => simp [createStep, h1, h2]
    | false => simp [createStep, h1, h2]

theorem deleteStep_check_log (env : Env) (p : Params) (fobj : Option Obj) (pfv : Option String) :
    (deleteStep env p fobj pfv true).2 = [] := by
  cases fobj with
  | none => rfl
  | some f => simp [deleteStep]

theorem createStep_parity (env : Env) (dcT : Tree) (p : Params) (pobj pfv : Option String)
    (hc : env.createOutcome = CreateOutcome.ok) :
    exitChanged (createStep env dcT p pobj pfv true).1 =
      exitChanged (createStep env dcT p pobj pfv false).1 := by
  cases h1 : ((truthy pfv || truthy p.parent_folder_moid) && pobj.isSome) with
  | true => simp [createStep, h1, hc, exitChanged]
  | false =>
    cases h2 : (!truthy pfv && pobj.isNone) with
    | true => simp [createStep, h1, h2, hc, exitChanged]
    | false => simp [createStep, h1, h2, exitChanged]

theorem deleteStep_parity (env : Env) (p : Params) (fobj : Option Obj) (pfv : Option String)
    (m : String) (hd : env.deleteOutcome = TaskOutcome.completed m) :
    exitChanged (deleteStep env p fobj pfv true).1 =
      exitChanged (deleteStep env p fobj pfv false).1 := by
  cases fobj with
  | none => rfl
  | some f => simp [deleteStep, hd, waitForTask, exitChanged]

theorem createStep_check_msg (env : Env) (dcT : Tree) (p : Params) (pobj pfv : Option String)
    (r : Results) (h : (createStep env dcT p pobj pfv true).1 = ModuleExit.exited r)
    (hc : r.changed = true) : r.msg ≠ none := by
  cases h1 : ((truthy pfv || truthy p.parent_folder_moid) && pobj.isSome) with
  | true =>
    simp [createStep, h1] at h
    rw [← h]
    simp
  | false =>
    cases h2 : (!truthy pfv && pobj.isNone) with
    | true =>
      simp [createStep, h1, h2] at h
      rw [← h]
      simp
    | false =>
      simp [createStep, h1, h2] at h
      rw [← h] at hc
      exact absurd hc (by simp [initResults])

theorem deleteStep_check_msg (env : Env) (p : Params) (fobj : Option Obj) (pfv : Option String)
    (r : Results) (h : (deleteStep env p fobj pfv true).1 = ModuleExit.exited r)
    (hc : r.changed = true) : r.msg ≠ none := by
  cases fobj with
  | none =>
    simp [deleteStep] at h
    rw [← h] at hc
    exact absurd hc (by simp [initResults])
  | some f =>
    simp [deleteStep] at h
    rw [← h]
    simp

/-! Claim theorems. -/

def e0 : Env := mkEnv invMain CreateOutcome.ok (TaskOutcome.completed "done")

def pWalk : Params :=
  { state := SState.present, datacenter := "DC0", folder_type := FolderType.vm,
    folder_name := "new", parent_folder := some "a/x/c", parent_folder_moid := none }

/-- Claim C1: for every `parent_folder` value containing a slash, resolving
it (after ignoring leading and trailing separators) is the sequential fold of
single-segment lookups, each anchored on the previously resolved folder; and
whenever the walk fails it does so on the first unresolved segment, making
the module fail fatally and immediately with the message naming exactly that
segment, in either state, with no mutation issued and no fallback. -/
theorem ensure_path_walk_correct (env : Env) (p : Params) (dcT : Tree) (pf : String)
    (check : Bool)
    (hdc : findDC env.content p.datacenter = some dcT)
    (hmoid : truthy p.parent_folder_moid = false)
    (hpf : p.parent_folder = some pf)
    (hpft : truthy (some pf) = true)
    (hslash : hasSlash pf = true) :
    (walkParts env.content dcT p.datacenter p.folder_type (splitSlash (pyStrip pf)) none =
      segFold env.content dcT p.datacenter p.folder_type (splitSlash (pyStrip pf)) none) ∧
    ∀ part,
      walkParts env.content dcT p.datacenter p.folder_type (splitSlash (pyStrip pf)) none =
        Except.error part →
      ensure env p check = (ModuleExit.failed (msgCouldNotFind part), []) ∧
      ∃ i a, List.get? (splitSlash (pyStrip pf)) i = some part ∧
        walkParts env.content dcT p.datacenter p.folder_type
          (List.take i (splitSlash (pyStrip pf))) none = Except.ok a ∧
        get_folder env.content dcT p.datacenter part p.folder_type a = none := by
  constructor
  · exact walkParts_eq_segFold env.content dcT p.datacenter p.folder_type _ none
  · intro part hw
    constructor
    · cases hst : p.state with
      | present =>
        rw [ensure_present_eq env p dcT check hdc hst,
          presentResolve_slash_error env dcT p pf part hmoid hpf hpft hslash hw]
      | absent =>
        rw [ensure_absent_eq env p dcT check hdc hst,
          absentResolve_slash_error env dcT p pf part hmoid hpf hpft hslash hw]
    · exact walkParts_error_first env.content dcT p.datacenter p.folder_type _ none part hw

theorem ensure_path_walk_correct_witness :
    ensure e0 pWalk false = (ModuleExit.failed (msgCouldNotFind "x"), []) ∧
    ∃ i a, List.get? (splitSlash (pyStrip "a/x/c")) i = some "x" ∧
      walkParts invMain dcMainT "DC0" FolderType.vm
        (List.take i (splitSlash (pyStrip "a/x/c"))) none = Except.ok a ∧
      get_folder invMain dcMainT "DC0" "x" FolderType.vm a = none :=
  (ensure_path_walk_correct e0 pWalk dcMainT "a/x/c" false rfl rfl rfl rfl rfl).2 "x" rfl

def xObj : Obj := { moid := "f-x", name := "X", kind := ObjKind.folder, childType := sigVM }

/-- Claim C2: a lookup returns only folders whose child-type signature
equals the signature of the requested category's root folder; in particular,
with two folders named Shared under the same datacenter — one vm-category,
one network-category — the vm lookup returns the vm folder and the network
lookup the network folder, their signatures being distinct. -/
theorem get_folder_category_disambiguation :
    (∀ (content dcT : Tree) (dcName n : String) (t : FolderType) (a : Option String) (f : Obj),
        get_folder content dcT dcName n t a = some f → f.childType = catRootChildType dcT t) ∧
    get_folder invShared dcSharedT "DC0" "Shared" FolderType.vm none = some sharedVMObj ∧
    get_folder invShared dcSharedT "DC0" "Shared" FolderType.network none = some sharedNetObj ∧
    sharedVMObj.childType = sigVM ∧ sharedNetObj.childType = sigNet ∧ sigVM ≠ sigNet := by
  refine ⟨?_, by decide, by decide, by decide, by decide, by decide⟩
  intro content dcT dcName n t a f h
  exact get_folder_some_sig h

theorem get_folder_category_disambiguation_witness :
    sharedVMObj.childType = catRootChildType dcSharedT FolderType.vm :=
  get_folder_category_disambiguation.1 invShared dcSharedT "DC0" "Shared" FolderType.vm none
    sharedVMObj (by decide)

/-- Claim C3: a name-only lookup matches a candidate only if the name of the
node two parent levels up equals the requested datacenter name; hence the
folder X existing only under datacenter DC2's vm root resolves, under
datacenter DC1, to NotFound. -/
theorem get_folder_datacenter_scope_guard :
    (∀ (content dcT : Tree) (dcName n : String) (t : FolderType) (f : Obj),
        get_folder content dcT dcName n t none = some f →
        ∃ anc, (f, anc) ∈ descendants content ∧
          Option.map Obj.name (List.get? anc 1) = some dcName) ∧
    get_folder invTwoDC dc2T "DC2" "X" FolderType.vm none = some xObj ∧
    get_folder invTwoDC dc1T "DC1" "X" FolderType.vm none = none := by
  refine ⟨?_, by decide, by decide⟩
  intro content dcT dcName n t f h
  rcases get_folder_noanchor_inv h with ⟨anc, hmem, _, _, _, hgp⟩
  exact ⟨anc, hmem, hgp⟩

theorem get_folder_datacenter_scope_guard_witness :
    ∃ anc, (xObj, anc) ∈ descendants invTwoDC ∧
      Option.map Obj.name (List.get? anc 1) = some "DC2" :=
  get_folder_datacenter_scope_guard.1 invTwoDC dc2T "DC2" "X" FolderType.vm xObj (by decide)

def dc0InnerObj : Obj :=
  { moid := "f-dc0", name := "DC0", kind := ObjKind.folder, childType := sigVM }

def aNestObj : Obj := { moid := "f-na", name := "a", kind := ObjKind.folder, childType := sigVM }

def vmRootNestObj : Obj :=
  { moid := "dc0-vm", name := "vm", kind := ObjKind.folder, childType := sigVM }

def dcNestObj : Obj := { moid := "dc0", name := "DC0", kind := ObjKind.datacenter, childType := [] }

def rootFolderObj : Obj :=
  { moid := "group-d1", name := "Datacenters", kind := ObjKind.folder,
    childType := ["Folder", "Datacenter"] }

/-- Claim C10 (counterexample): the folder `mine` sits three levels below
the vm category root of datacenter DC0 (its ancestors are the folder `a`,
then the folder named DC0, then the vm root), so it is not an immediate
child of any category root; yet the name-only lookup returns it, because its
grandparent is merely *named* like the datacenter — the source checks
`folder.parent.parent.name`, not identity with the datacenter node. -/
theorem get_folder_nested_counterexample :
    get_folder invNested dcNestedT "DC0" "mine" FolderType.vm none = some mineObj ∧
    (descendants invNested).find? (fun pr => pr.1.moid == "f-mine") =
      some (mineObj, [aNestObj, dc0InnerObj, vmRootNestObj, dcNestObj, rootFolderObj]) ∧
    dc0InnerObj.kind = ObjKind.folder := by
  refine ⟨by decide, by decide, by decide⟩

/-- Claim C10 (amended): a name-only lookup returns only folders whose
grandparent node's *name* equals the requested datacenter name (with
matching name and signature); immediate children of a category root satisfy
this, but so does any deeper folder whose grandparent folder happens to be
named like the datacenter. -/
theorem get_folder_name_only_amended (content dcT : Tree) (dcName n : String) (t : FolderType)
    (f : Obj) (h : get_folder content dcT dcName n t none = some f) :
    ∃ anc, (f, anc) ∈ descendants content ∧ f.kind = ObjKind.folder ∧ f.name = n ∧
      f.childType = catRootChildType dcT t ∧
      Option.map Obj.name (List.get? anc 1) = some dcName :=
  get_folder_noanchor_inv h

theorem get_folder_name_only_amended_witness :
    ∃ anc, (mineObj, anc) ∈ descendants invNested ∧ mineObj.kind = ObjKind.folder ∧
      mineObj.name = "mine" ∧ mineObj.childType = catRootChildType dcNestedT FolderType.vm ∧
      Option.map Obj.name (List.get? anc 1) = some "DC0" :=
  get_folder_name_only_amended invNested dcNestedT "DC0" "mine" FolderType.vm mineObj (by decide)

def pNew : Params :=
  { state := SState.present, datacenter := "DC0", folder_type := FolderType.vm,
    folder_name := "new", parent_folder := none, parent_folder_moid := none }

/-- Claim C4: in check mode, no create, destroy or unregister call is issued
to the inventory client on any branch; whenever the platform calls of the
non-check run succeed, the check run's reported changed flag equals the
non-check run's; and a check run that reports changed=true always carries a
descriptive message. -/
theorem ensure_check_mode_contract (env : Env) (p : Params) :
    (ensure env p true).2 = [] ∧
    (env.createOutcome = CreateOutcome.ok →
      ∀ m, env.deleteOutcome = TaskOutcome.completed m →
        exitChanged (ensure env p true).1 = exitChanged (ensure env p false).1) ∧
    ∀ r, (ensure env p true).1 = ModuleExit.exited r → r.changed = true → r.msg ≠ none := by
  cases hdc : findDC env.content p.datacenter with
  | none =>
    refine ⟨?_, ?_, ?_⟩
    · unfold ensure; rw [hdc]
    · intro _ m _; unfold ensure; rw [hdc]
    · intro r h hc
      unfold ensure at h; rw [hdc] at h
      exact absurd h (by simp)
  | some dcT =>
    cases hst : p.state with
    | present =>
      have he1 := ensure_present_eq env p dcT true hdc hst
      have he0 := ensure_present_eq env p dcT false hdc hst
      cases hr : presentResolve env dcT p with
      | error s =>
        rw [hr] at he1 he0
        refine ⟨by rw [he1], ?_, ?_⟩
        · intro _ m _; rw [he1, he0]
        · intro r h hc; rw [he1] at h; exact absurd h (by simp)
      | ok sres =>
        cases sres with
        | inl r0 =>
          rw [hr] at he1 he0
          refine ⟨by rw [he1], ?_, ?_⟩
          · intro _ m _; rw [he1, he0]
          · intro r h hc
            rw [he1] at h
            have h2 : r0 = r := ModuleExit.exited.inj h
            rcases presentResolve_inl_changed env dcT p r0 hr with ⟨hch, _⟩
            rw [h2] at hch
            rw [hch] at hc
            exact absurd hc (by simp)
        | inr pr =>
          rw [hr] at he1 he0
          refine ⟨?_, ?_, ?_⟩
          · rw [he1]; exact createStep_check_log env dcT p pr.1 pr.2
          · intro hc m hd; rw [he1, he0]; exact createStep_parity env dcT p pr.1 pr.2 hc
          · intro r h hc; rw [he1] at h; exact createStep_check_msg env dcT p pr.1 pr.2 r h hc
    | absent =>
      have he1 := ensure_absent_eq env p dcT true hdc hst
      have he0 := ensure_absent_eq env p dcT false hdc hst
      cases hr : absentResolve env dcT p with
      | error s =>
        rw [hr] at he1 he0
        refine ⟨by rw [he1], ?_, ?_⟩
        · intro _ m _; rw [he1, he0]
        · intro r h hc; rw [he1] at h; exact absurd h (by simp)
      | ok pr =>
        rw [hr] at he1 he0
        refine ⟨?_, ?_, ?_⟩
        · rw [he1]; exact deleteStep_check_log env p pr.1 pr.2
        · intro hc m hd; rw [he1, he0]; exact deleteStep_parity env p pr.1 pr.2 m hd
        · intro r h hc; rw [he1] at h; exact deleteStep_check_msg env p pr.1 pr.2 r h hc

theorem ensure_check_mode_contract_witness :
    (ensure e0 pNew true).2 = [] ∧
    exitChanged (ensure e0 pNew true).1 = exitChanged (ensure e0 pNew false).1 :=
  ⟨(ensure_check_mode_contract e0 pNew).1,
    (ensure_check_mode_contract e0 pNew).2.1 rfl "done" rfl⟩

/-- Claim C5: whenever the create stage actually issues a CreateFolder call
(state=present, target not found after resolution), a DuplicateName fault is
recoverable — the module exits successfully with changed=false and an
explanatory message — while an InvalidName fault or any other unclassified
exception is fatal. -/
theorem ensure_duplicate_name_recoverable (env : Env) (p : Params) (dcT : Tree)
    (pobj pfv : Option String)
    (hdc : findDC env.content p.datacenter = some dcT)
    (hst : p.state = SState.present)
    (hres : presentResolve env dcT p = Except.ok (Sum.inr (pobj, pfv))) :
    ensure env p false = createStep env dcT p pobj pfv false ∧
    ((createStep env dcT p pobj pfv false).2 ≠ [] →
      (∀ m, env.createOutcome = CreateOutcome.duplicateName m →
        (createStep env dcT p pobj pfv false).1 =
          ModuleExit.exited
            { changed := false, result := ResultVal.obj none none,
              msg := some (msgDuplicate m) }) ∧
      (∀ m, env.createOutcome = CreateOutcome.invalidName m →
        (createStep env dcT p pobj pfv false).1 = ModuleExit.failed (msgInvalidName m)) ∧
      (∀ m, env.createOutcome = CreateOutcome.otherFault m →
        (createStep env dcT p pobj pfv false).1 = ModuleExit.failed (msgCreateGeneric m))) := by
  constructor
  · rw [ensure_present_eq env p dcT false hdc hst, hres]
  · intro hlog
    cases h1 : ((truthy pfv || truthy p.parent_folder_moid) && pobj.isSome) with
    | true =>
      refine ⟨?_, ?_, ?_⟩ <;> intro m hco <;> simp [createStep, h1, hco]
    | false =>
      cases h2 : (!truthy pfv && pobj.isNone) with
      | true =>
        refine ⟨?_, ?_, ?_⟩ <;> intro m hco <;> simp [createStep, h1, h2, hco]
      | false =>
        exact absurd (by simp [createStep, h1, h2]) hlog

def envDup : Env := mkEnv invMain (CreateOutcome.duplicateName "dup") (TaskOutcome.completed "d")

theorem ensure_duplicate_name_recoverable_witness :
    ensure envDup pNew false = createStep envDup dcMainT pNew none none false ∧
    (createStep envDup dcMainT pNew none none false).1 =
      ModuleExit.exited
        { changed := false, result := ResultVal.obj none none,
          msg := some (msgDuplicate "dup") } := by
  have h := ensure_duplicate_name_recoverable envDup pNew dcMainT none none rfl rfl rfl
  exact ⟨h.1, (h.2 (by decide)).1 "dup" rfl⟩

/-- Claim C6 (amended): whenever a state=present run finds the target
already existing, the module exits with changed=false and a message that the
folder already exists; however the result includes the folder's full path
only when no parent anchor was supplied — with a parent anchor (by moid, by
path, or by single name) the result is the bare message string without the
path. -/
theorem ensure_present_found_amended (env : Env) (p : Params) (dcT : Tree) (r : Results)
    (check : Bool)
    (hdc : findDC env.content p.datacenter = some dcT)
    (hst : p.state = SState.present)
    (hres : presentResolve env dcT p = Except.ok (Sum.inl r)) :
    ensure env p check = (ModuleExit.exited r, []) ∧
    r.changed = false ∧
    (truthy p.parent_folder_moid = false → truthy p.parent_folder = false →
      ∃ f, get_folder env.content dcT p.datacenter p.folder_name p.folder_type none = some f ∧
        r.result = ResultVal.obj (some (pathOfMoid env.content f.moid))
          (some (msgExists p.folder_name))) ∧
    ((truthy p.parent_folder_moid = true ∨ truthy p.parent_folder = true) →
      ∃ pn, r.result = ResultVal.str (msgExistsUnder p.folder_name pn)) := by
  refine ⟨?_, (presentResolve_inl_changed env dcT p r hres).1, ?_, ?_⟩
  · rw [ensure_present_eq env p dcT check hdc hst, hres]
  · intro hm hp
    unfold presentResolve at hres
    simp only [hm, hp, Bool.false_eq_true, if_false] at hres
    cases hg : get_folder env.content dcT p.datacenter p.folder_name p.folder_type none with
    | some f =>
      rw [hg] at hres
      have h3 := Sum.inl.inj (Except.ok.inj hres)
      exact ⟨f, rfl, by rw [← h3]⟩
    | none =>
      rw [hg] at hres
      exact absurd hres (by simp)
  · intro hor
    unfold presentResolve at hres
    dsimp only [] at hres
    split at hres
    case isTrue =>
      split at hres
      case h_1 => exact absurd hres (by simp)
      case h_2 =>
        split at hres
        case h_1 =>
          have h3 := Sum.inl.inj (Except.ok.inj hres)
          exact ⟨_, by rw [← h3]⟩
        case h_2 => exact absurd hres (by simp)
    case isFalse =>
      split at hres
      case isTrue =>
        split at hres
        case isTrue =>
          split at hres
          case h_1 => exact absurd hres (by simp)
          case h_2 =>
            split at hres
            case h_1 =>
              have h3 := Sum.inl.inj (Except.ok.inj hres)
              exact ⟨_, by rw [← h3]⟩
            case h_2 => exact absurd hres (by simp)
        case isFalse =>
          split at hres
          case h_1 => exact absurd hres (by simp)
          case h_2 =>
            split at hres
            case h_1 =>
              have h3 := Sum.inl.inj (Except.ok.inj hres)
              exact ⟨_, by rw [← h3]⟩
            case h_2 => exact absurd hres (by simp)
      case isFalse =>
        rcases hor with hor | hor
        · simp_all
        · simp_all

def pFoundA : Params :=
  { state := SState.present, datacenter := "DC0", folder_type := FolderType.vm,
    folder_name := "a", parent_folder := none, parent_folder_moid := none }

theorem ensure_present_found_amended_witness :
    ensure e0 pFoundA false =
      (ModuleExit.exited
        { changed := false, result := ResultVal.obj (some "/vm/a") (some (msgExists "a")),
          msg := none }, []) ∧
    ∃ f, get_folder invMain dcMainT "DC0" "a" FolderType.vm none = some f ∧
      (ResultVal.obj (some "/vm/a") (some (msgExists "a"))) =
        ResultVal.obj (some (pathOfMoid invMain f.moid)) (some (msgExists "a")) := by
  have h := ensure_present_found_amended e0 pFoundA dcMainT
    { changed := false, result := ResultVal.obj (some "/vm/a") (some (msgExists "a")),
      msg := none }
    false rfl rfl (by rfl)
  refine ⟨h.1, ?_⟩
  rcases h.2.2.1 rfl rfl with ⟨f, hg, hr⟩
  exact ⟨f, hg, hr⟩

def pMoidFound : Params :=
  { state := SState.present, datacenter := "DC0", folder_type := FolderType.vm,
    folder_name := "b", parent_folder := none, parent_folder_moid := some "f-a" }

/-- Claim C6 (counterexample): with the parent anchor given by moid and the
target already existing, the module exits with changed=false but the emitted
result is the bare already-exists string — it does not include the folder's
full path, contradicting the claim that every found-target exit includes the
path in the result. -/
theorem ensure_present_found_counterexample :
    ensure e0 pMoidFound false =
      (ModuleExit.exited
        { changed := false,
          result := ResultVal.str "Folder b already exists under parent folder a",
          msg := none },
       []) ∧
    resultPathOf (ensure e0 pMoidFound false).1 = none := by
  refine ⟨by decide, by decide⟩

def pNameFound : Params :=
  { state := SState.present, datacenter := "DC0", folder_type := FolderType.vm,
    folder_name := "b", parent_folder := some "a", parent_folder_moid := none }

/-- Claim C7 (code bug): on the successful single-name-parent already-exists
exit the emitted payload has result as a *bare string*, not the documented
object shape with the message under result.msg — the path stored at source
line 262 is clobbered by the whole-result string assignment at lines
263-264, contradicting the module's own RETURN documentation. -/
theorem ensure_result_shape_bug :
    ensure e0 pNameFound false =
      (ModuleExit.exited
        { changed := false,
          result := ResultVal.str "Folder b already exists under parent folder a",
          msg := none },
       []) ∧
    resultPathOf (ensure e0 pNameFound false).1 = none := by
  refine ⟨by decide, by decide⟩

/-- Claim C8: a found target in state=absent is deleted with
UnregisterAndDestroy exactly when the category is vm and with plain Destroy
otherwise; exactly one such task is submitted, and the reported changed flag
and message are the pair returned by awaiting the task's terminal status. -/
theorem ensure_absent_delete_operation (env : Env) (p : Params) (dcT : Tree) (f : Obj)
    (pfv : Option String)
    (hdc : findDC env.content p.datacenter = some dcT)
    (hst : p.state = SState.absent)
    (hres : absentResolve env dcT p = Except.ok (some f, pfv)) :
    ensure env p false = deleteStep env p (some f) pfv false ∧
    (deleteStep env p (some f) pfv false).2 =
      [if p.folder_type = FolderType.vm then Mutation.unregisterAndDestroy f.moid
       else Mutation.destroy f.moid] ∧
    ∀ b m, waitForTask env.deleteOutcome = Except.ok (b, m) →
      (deleteStep env p (some f) pfv false).1 =
        ModuleExit.exited
          { changed := b, result := ResultVal.obj none none, msg := some m } := by
  refine ⟨?_, ?_, ?_⟩
  · rw [ensure_absent_eq env p dcT false hdc hst, hres]
  · cases hw : env.deleteOutcome <;> simp [deleteStep, hw, waitForTask]
  · intro b m hw
    cases hd : env.deleteOutcome with
    | completed ms =>
      rw [hd] at hw
      have h2 : ((true, ms) : Bool × String) = (b, m) := Except.ok.inj hw
      rcases Prod.mk.inj h2 with ⟨hb, hm⟩
      rw [← hb, ← hm]
      simp [deleteStep, hd, waitForTask]
    | concurrentAccess ms => rw [hd] at hw; exact absurd hw (by simp [waitForTask])
    | invalidState ms => rw [hd] at hw; exact absurd hw (by simp [waitForTask])
    | otherFault ms => rw [hd] at hw; exact absurd hw (by simp [waitForTask])

def aObj : Obj := { moid := "f-a", name := "a", kind := ObjKind.folder, childType := sigVM }

def pAbsA : Params :=
  { state := SState.absent, datacenter := "DC0", folder_type := FolderType.vm,
    folder_name := "a", parent_folder := none, parent_folder_moid := none }

theorem ensure_absent_delete_operation_witness :
    ensure e0 pAbsA false = deleteStep e0 pAbsA (some aObj) none false ∧
    (deleteStep e0 pAbsA (some aObj) none false).2 = [Mutation.unregisterAndDestroy "f-a"] ∧
    (deleteStep e0 pAbsA (some aObj) none false).1 =
      ModuleExit.exited
        { changed := true, result := ResultVal.obj none none, msg := some "done" } := by
  have h := ensure_absent_delete_operation e0 pAbsA dcMainT aObj none rfl rfl rfl
  refine ⟨h.1, ?_, h.2.2 true "done" rfl⟩
  have h2 := h.2.1
  simpa [aObj] using h2

/-- Claim C9: a state=absent run whose target is not found (after any
required parent anchor resolved) exits successfully with the untouched
initial results — changed=false — and issues no mutating call. -/
theorem ensure_absent_noop (env : Env) (p : Params) (dcT : Tree) (pfv : Option String)
    (check : Bool)
    (hdc : findDC env.content p.datacenter = some dcT)
    (hst : p.state = SState.absent)
    (hres : absentResolve env dcT p = Except.ok (none, pfv)) :
    ensure env p check = (ModuleExit.exited initResults, []) ∧ initResults.changed = false := by
  refine ⟨?_, rfl⟩
  rw [ensure_absent_eq env p dcT check hdc hst, hres]
  rfl

def pAbsMissing : Params :=
  { state := SState.absent, datacenter := "DC0", folder_type := FolderType.vm,
    folder_name := "zz", parent_folder := none, parent_folder_moid := none }

theorem ensure_absent_noop_witness :
    ensure e0 pAbsMissing false = (ModuleExit.exited initResults, []) :=
  (ensure_absent_noop e0 pAbsMissing dcMainT none false rfl rfl rfl).1

end VcenterFolder
